import Mathlib

/-!
Verification of the GNSS estimation orchestrator (`selfdrive/locationd/laikad.py`).

The per-message orchestration logic is embedded shallowly: satellite times
(`GPSTime`, which supports total ordering and subtraction in seconds) and the
receiver monotonic clock are both modelled as rational numbers of seconds;
floating-point state components are modelled as a rational value together with
a finiteness flag (NaN/inf have the flag `false`); external collaborators
(laika measurement processing, the sympy position solver, orbit download, the
ublox decoders) are supplied as explicit oracle functions, mirroring the
capability boundary of the design.  Effects on the external Kalman filter are
recorded as an explicit operation trace (`KFOp`), since the filter numerics
themselves are out of scope.
-/

/-- Constellation identifiers from `laika.helpers.ConstellationId`; only the
constructors relevant to routing are modelled, with their enum values. -/
inductive ConstellationId
  | GPS
  | GLONASS
  | GALILEO
  | BEIDOU
  | QZSS
deriving DecidableEq

/-- Enum value of a constellation (`laika` assigns GPS=0, GALILEO=2, BEIDOU=3,
QZSS=5, GLONASS=6). -/
def ConstellationId.value : ConstellationId → Nat
  | .GPS => 0
  | .GLONASS => 6
  | .GALILEO => 2
  | .BEIDOU => 3
  | .QZSS => 5

/-- Ephemeris types from `laika.ephemeris.EphemerisType` (subset used here). -/
inductive EphemerisType
  | NAV
  | ULTRA_RAPID_ORBIT
  | RAPID_ORBIT
  | FINAL_ORBIT
deriving DecidableEq

/-- Observation kinds from `selfdrive.locationd.models.constants.ObservationKind`
(only the four kinds routed by `kf_add_observations` are modelled). -/
inductive ObservationKind
  | PSEUDORANGE_GPS
  | PSEUDORANGE_GLONASS
  | PSEUDORANGE_RATE_GPS
  | PSEUDORANGE_RATE_GLONASS
deriving DecidableEq

/-- `EphemerisSourceType` enum from the source file. -/
inductive EphemerisSourceType
  | nav
  | nasaUltraRapid
  | glonassIacUltraRapid
deriving DecidableEq

/-- Enum values: nav = 0, nasaUltraRapid = 1, glonassIacUltraRapid = 2. -/
def EphemerisSourceType.value : EphemerisSourceType → Nat
  | .nav => 0
  | .nasaUltraRapid => 1
  | .glonassIacUltraRapid => 2

/-- A `GPSTime` kept as its week/time-of-week pair, as serialized into the
outgoing message (`ephemerisSource.gpsWeek` and `gpsTimeOfWeek`). -/
structure FileEpoch where
  week : ℤ
  tow : ℚ
deriving DecidableEq

/-- An ephemeris record as the orchestrator reads it: satellite id, validity
epoch (satellite time in seconds), source type, the epoch of the file it came
from (absent for broadcast nav), and the file-source tag string. -/
structure Eph where
  prn : String
  epoch : ℚ
  eph_type : EphemerisType
  file_epoch : Option FileEpoch
  file_source : String
deriving DecidableEq

/-- A (processed or corrected) GNSS measurement (`laika.raw_gnss.GNSSMeasurement`),
restricted to the fields the orchestrator reads. -/
structure Meas where
  constellation_id : ConstellationId
  sv_id : Nat
  glonass_freq : ℚ
  pr : ℚ
  pr_std : ℚ
  prr : ℚ
  prr_std : ℚ
  sat_pos : List ℚ
  sat_vel : List ℚ
  sat_ephemeris : Option Eph
deriving DecidableEq

/-- Opaque raw measurement payload, decoded only by the external
`read_raw_ublox`. -/
abbrev RawMeas : Type := Nat

/-- Opaque raw ublox ephemeris payload, decoded only by the external
`convert_ublox_ephem`. -/
abbrev UbloxEphData : Type := Nat

/-- The fields of a ublox `measurementReport` the orchestrator reads. -/
structure MeasurementReport where
  gpsWeek : ℤ
  rcvTow : ℚ
  raw : List RawMeas

/-- An inbound ublox message, dispatched on its `which` tag; kinds other than
`measurementReport` and `ephemeris` are ignored by the handler. -/
inductive UbloxMsg
  | measurementReport (rep : MeasurementReport)
  | ephemeris (raw : UbloxEphData)
  | other

/-- The orbit / nav ephemeris store: satellite id mapped to its ephemerides.
Owned by the external `AstroDog`; the orchestrator only swaps or merges whole
snapshots of it. -/
abbrev OrbitStore : Type := List (String × List Eph)

/-- Membership predicate for `astro_dog.orbit_fetched_times` (a set of time
ranges in laika, queried only through `t in ...`). -/
abbrev TimeSet : Type := ℚ → Bool

/-- The slice of external `AstroDog` state the orchestrator reads or writes. -/
structure AstroDog where
  orbits : OrbitStore
  nav : OrbitStore
  orbit_fetched_times : TimeSet

/-- The slice of the external `GNSSKalman` state the orchestrator reads or
writes: the filter time (`none` models NaN / uninitialized), the state vector,
a per-component finiteness flag (floats may be NaN/inf), and the covariance
diagonal. -/
structure GnssKf where
  filter_time : Option ℚ
  x : Nat → ℚ
  x_finite : Nat → Bool
  p_diag : Nat → ℚ

/-- Status of the background orbit-fetch future: still running, or completed
with its result (`none` when the download/parsing failed; `get_orbit_data`
catches RuntimeError/ValueError/IOError and returns nothing). -/
inductive OrbitFetch
  | pending
  | done (result : Option (OrbitStore × TimeSet))

/-- The mutable state of the `Laikad` orchestrator instance. -/
structure LaikadState where
  astro_dog : AstroDog
  gnss_kf : GnssKf
  auto_fetch_orbits : Bool
  orbit_fetch_future : Option OrbitFetch
  last_fetch_orbits_t : Option ℚ
  last_cached_t : Option ℚ
  save_ephemeris : Bool
  last_pos_fix : List ℚ
  last_pos_residual : List ℚ
  last_pos_fix_t : Option ℚ

/-- External capabilities, supplied as oracles.  `x_initial` and
`p_initial_diag` are the default initial state vector and covariance diagonal
of the external `GNSSKalman` model (class constants read by
`init_gnss_localizer`); `calc_pos_fix_gauss_newton` is the least-squares
solver (the sympy residual functions it closes over are elided);
`get_orbit_data_blocking` is the synchronous orbit download used in blocking
mode. -/
structure Oracles where
  read_raw_ublox : MeasurementReport → List RawMeas
  process_measurements : List RawMeas → AstroDog → List Meas
  correct_measurements : List Meas → List ℚ → AstroDog → List Meas
  calc_pos_fix_gauss_newton : List Meas → Nat → List ℚ × List ℚ
  get_orbit_data_blocking : ℚ → Option (OrbitStore × TimeSet)
  convert_ublox_ephem : UbloxEphData → Eph
  x_initial : Nat → ℚ
  p_initial_diag : Nat → ℚ

/-- `MAX_TIME_GAP = 10` seconds. -/
def MAX_TIME_GAP : ℚ := 10

/-- `SECS_IN_MIN = 60` seconds (from `laika.constants`). -/
def SECS_IN_MIN : ℚ := 60

/-- Seconds in a GPS week, used to linearize `GPSTime(week, tow)` into
rational seconds. -/
def SECS_IN_WEEK : ℚ := 604800

/-- A `GPSTime(week, tow)` as rational seconds on the satellite time axis. -/
def gps_time_secs (week : ℤ) (tow : ℚ) : ℚ := week * SECS_IN_WEEK + tow

/-- Modelled from the spec: the index slice of the position sub-state inside
the external GNSS Kalman model state layout (`GStates.ECEF_POS`); the layout
lives in `models/gnss_kf.py`, outside the embedded core, with position first. -/
def ECEF_POS : List Nat := [0, 1, 2]

/-- Modelled from the spec: the index slice of the velocity sub-state of the
external GNSS Kalman model state layout (`GStates.ECEF_VELOCITY`). -/
def ECEF_VELOCITY : List Nat := [3, 4, 5]

/-- The shared throttle pattern `last is None or t - last > SECS_IN_MIN`, used
by both `cache_ephemeris` (line 79) and `fetch_orbits` (line 174). -/
def throttle_expired (last : Option ℚ) (t : ℚ) : Bool :=
  match last with
  | none => true
  | some l => decide (t - l > SECS_IN_MIN)

/-- `Laikad.cache_ephemeris`: if saving is enabled and the 60 s throttle has
expired, fire-and-forget a snapshot write (`put_nonblocking`) and record the
write time.  The returned Bool reports whether the snapshot write happened. -/
def cache_ephemeris (s : LaikadState) (t : ℚ) : LaikadState × Bool :=
  if s.save_ephemeris && throttle_expired s.last_cached_t t then
    ({ s with last_cached_t := some t }, true)
  else
    (s, false)

/-- The staleness test of `Laikad.get_est_pos` (line 87):
`last_pos_fix_t is None or abs(last_pos_fix_t - t) >= 2`. -/
def pos_fix_stale (last : Option ℚ) (t : ℚ) : Bool :=
  match last with
  | none => true
  | some l => decide (2 ≤ |l - t|)

/-- The `min_measurements` argument passed to the solver (line 88): 5 when any
processed measurement is GLONASS, else 4. -/
def min_measurements_for (processed : List Meas) : Nat :=
  if processed.any (fun p => decide (p.constellation_id = ConstellationId.GLONASS)) then 5
  else 4

/-- Result of `Laikad.get_est_pos`: the updated state, the returned
`last_pos_fix`, and — when a solve was attempted — the `min_measurements`
bound the solver was invoked with. -/
structure EstPosResult where
  state : LaikadState
  est_pos : List ℚ
  solve_min : Option Nat

/-- `Laikad.get_est_pos`: recompute the single-epoch fix only when the cached
fix timestamp is unset or at least 2 s away from `t`; cache a successful
solve; always return the (possibly updated) cached fix. -/
def get_est_pos (o : Oracles) (s : LaikadState) (t : ℚ) (processed : List Meas) :
    EstPosResult :=
  if pos_fix_stale s.last_pos_fix_t t then
    let m := min_measurements_for processed
    let r := o.calc_pos_fix_gauss_newton processed m
    if r.1.length > 0 then
      let s2 := { s with last_pos_fix := r.1.take 3,
                         last_pos_residual := r.2,
                         last_pos_fix_t := some t }
      ⟨s2, s2.last_pos_fix, some m⟩
    else
      ⟨s, s.last_pos_fix, some m⟩
  else
    ⟨s, s.last_pos_fix, none⟩

/-- `Laikad.kf_valid`: the composite validity vector
`[has_time, time_fresh, finite_state]`.  With a NaN filter time (here `none`),
`abs(t - filter_time) < MAX_TIME_GAP` evaluates to False in the source. -/
def kf_valid (kf : GnssKf) (t : ℚ) : List Bool :=
  [kf.filter_time.isSome,
   (match kf.filter_time with
    | none => false
    | some ft => decide (|t - ft| < MAX_TIME_GAP)),
   ECEF_POS.all kf.x_finite]

/-- `Laikad.init_gnss_localizer`: copy the model defaults `x_initial` /
`diag(P_initial)`, overwrite the position slice with the fix and its
covariance diagonal with `1000 ** 2`, and reinitialize the filter state with
them (`init_state` is called without a filter time, so the filter clock is not
set here; the fresh state components are concrete numbers, hence finite). -/
def init_gnss_localizer (o : Oracles) (est_pos : List ℚ) (kf : GnssKf) : GnssKf :=
  { kf with
    x := fun i => if i ∈ ECEF_POS then est_pos.getD i 0 else o.x_initial i,
    x_finite := fun _ => true,
    p_diag := fun i => if i ∈ ECEF_POS then 1000 ^ 2 else o.p_initial_diag i }

/-- The GPS bucket accumulated by the loop of `kf_add_observations`. -/
def gps_bucket (measurements : List Meas) : List Meas :=
  measurements.filter (fun m => decide (m.constellation_id = ConstellationId.GPS))

/-- The GLONASS bucket accumulated by the loop of `kf_add_observations`. -/
def glonass_bucket (measurements : List Meas) : List Meas :=
  measurements.filter (fun m => decide (m.constellation_id = ConstellationId.GLONASS))

/-- The batches submitted by `kf_add_observations`: measurements are bucketed
by constellation (others dropped), each bucket is entered both under its
pseudorange kind and its pseudorange-rate kind (lines 249-250 alias the very
same list), and only non-empty batches are submitted via
`predict_and_observe`.  The Python dict holds exactly these four keys after
lines 249-250 (the aliasing assignments create the missing ones); its
insertion order depends on which constellation appears first, which no caller
observes, so the batches are returned in this fixed order. -/
def kf_add_observations (measurements : List Meas) :
    List (ObservationKind × List Meas) :=
  ([(ObservationKind.PSEUDORANGE_GPS, gps_bucket measurements),
    (ObservationKind.PSEUDORANGE_GLONASS, glonass_bucket measurements),
    (ObservationKind.PSEUDORANGE_RATE_GPS, gps_bucket measurements),
    (ObservationKind.PSEUDORANGE_RATE_GLONASS, glonass_bucket measurements)]).filter
    (fun kd => decide (kd.2.length > 0))

/-- Effects of one `fetch_orbits` call: whether a new background task was
submitted to the process pool, and whether the cache snapshot was written. -/
structure FetchEffects where
  started_task : Bool
  cache_written : Bool
deriving DecidableEq

/-- `Laikad.fetch_orbits`: guarded by coverage of `t` in the fetched-time
ranges and the 60 s throttle; in blocking mode fetches inline; otherwise
either submits a background task (future unset), lets a pending task run, or
harvests a completed one — setting `last_fetch_orbits_t := t` on harvest
regardless of the result — and, when data arrived, swaps in the orbit store
and triggers `cache_ephemeris`.  (The process-pool executor construction is an
implementation detail of task submission and is not modelled separately.) -/
def fetch_orbits (o : Oracles) (s : LaikadState) (t : ℚ) (block : Bool) :
    LaikadState × FetchEffects :=
  if !(s.astro_dog.orbit_fetched_times t)
      && throttle_expired s.last_fetch_orbits_t t then
    let step : LaikadState × Option (OrbitStore × TimeSet) × Bool :=
      if block then
        (s, o.get_orbit_data_blocking t, false)
      else
        match s.orbit_fetch_future with
        | none => ({ s with orbit_fetch_future := some OrbitFetch.pending }, none, true)
        | some OrbitFetch.pending => (s, none, false)
        | some (OrbitFetch.done r) =>
            ({ s with last_fetch_orbits_t := some t, orbit_fetch_future := none }, r, false)
    match step.2.1 with
    | some ret =>
        let s2 := { step.1 with
          astro_dog := { step.1.astro_dog with
            orbits := ret.1, orbit_fetched_times := ret.2 } }
        let c := cache_ephemeris s2 t
        (c.1, ⟨step.2.2, c.2⟩)
    | none => (step.1, ⟨step.2.2, false⟩)
  else
    (s, ⟨false, false⟩)

/-- The persisted cache snapshot, as read back by `load_cache` (the `version`
field is written but never read by the loader). -/
structure CacheSnapshot where
  last_fetch_orbits_t : Option ℚ
  orbits : OrbitStore
  nav : OrbitStore

/-- Outcome of `json.loads` on the persisted bytes: a decode failure
(raising `json.decoder.JSONDecodeError`) or a parsed snapshot. -/
inductive ParseOutcome
  | decodeError
  | ok (snap : CacheSnapshot)

/-- The exception class that escapes `load_cache` on corrupt bytes:
subscripting the still-raw bytes object with a string key raises TypeError. -/
inductive LoadError
  | typeError
deriving DecidableEq

/-- External `AstroDog.add_orbits` / `add_navs` merge new entries into the
store; the merge policy lives in laika, so it is modelled as prepending the
new entries (no claim depends on the merge policy). -/
def add_store (store new_entries : OrbitStore) : OrbitStore :=
  new_entries ++ store

/-- `Laikad.load_cache`: skipped when persistence is disabled or no bytes are
stored (empty bytes are falsy).  On a successful parse the orbit/nav stores
are merged and `last_fetch_orbits_t` restored.  On a decode failure the
`except` clause only logs; control then reaches the debug-log line (lines
74-76), which subscripts the still-raw bytes (`cache` was never rebound) with
a string key — raising a TypeError that escapes to the caller. -/
def load_cache (s : LaikadState) (raw : Option String)
    (parse : String → ParseOutcome) : Except LoadError LaikadState :=
  if s.save_ephemeris = false then Except.ok s
  else
    match raw with
    | none => Except.ok s
    | some bytes =>
        if bytes = "" then Except.ok s
        else
          match parse bytes with
          | ParseOutcome.ok snap =>
              Except.ok { s with
                astro_dog := { s.astro_dog with
                  orbits := add_store s.astro_dog.orbits snap.orbits,
                  nav := add_store s.astro_dog.nav snap.nav },
                last_fetch_orbits_t := snap.last_fetch_orbits_t }
          | ParseOutcome.decodeError => Except.error LoadError.typeError

/-- The exceptions `create_measurement_msg` can raise: the two assertion
failures (missing ephemeris, missing file epoch on an orbit product) and the
contract violation for an unrecognized file-source tag. -/
inductive MsgError
  | ephemNone
  | fileEpochNone
  | unexpectedFileSource (src : String)
deriving DecidableEq

/-- Is this error the unrecognized-file-source contract violation? -/
def MsgError.is_contract_violation : MsgError → Bool
  | .unexpectedFileSource _ => true
  | _ => false

/-- One entry of the outgoing `correctedMeasurements` list. -/
structure CorrectedMeasurementMsg where
  constellationId : Nat
  svId : Nat
  glonassFrequency : ℚ
  pseudorange : ℚ
  pseudorangeStd : ℚ
  pseudorangeRate : ℚ
  pseudorangeRateStd : ℚ
  satPos : List ℚ
  satVel : List ℚ
  ephemerisSourceType : Nat
  ephemerisSourceGpsWeek : ℤ
  ephemerisSourceGpsTimeOfWeek : ℤ
deriving DecidableEq

/-- Python `int()` truncation toward zero on a rational. -/
def int_trunc (q : ℚ) : ℤ := if 0 ≤ q then ⌊q⌋ else ⌈q⌉

/-- `create_measurement_msg`: assemble one outgoing corrected-measurement
entry.  The two `assert` statements become `ephemNone` / `fileEpochNone`
errors; an orbit-product ephemeris whose `file_source` is neither `igu` nor
`Sta` raises (`unexpectedFileSource`). -/
def create_measurement_msg (meas : Meas) : Except MsgError CorrectedMeasurementMsg :=
  match meas.sat_ephemeris with
  | none => Except.error MsgError.ephemNone
  | some ephem =>
      let base : EphemerisSourceType × ℤ × ℤ → CorrectedMeasurementMsg := fun st =>
        { constellationId := meas.constellation_id.value,
          svId := meas.sv_id,
          glonassFrequency :=
            if meas.constellation_id = ConstellationId.GLONASS then meas.glonass_freq else 0,
          pseudorange := meas.pr,
          pseudorangeStd := meas.pr_std,
          pseudorangeRate := meas.prr,
          pseudorangeRateStd := meas.prr_std,
          satPos := meas.sat_pos,
          satVel := meas.sat_vel,
          ephemerisSourceType := st.1.value,
          ephemerisSourceGpsWeek := st.2.1,
          ephemerisSourceGpsTimeOfWeek := st.2.2 }
      if ephem.eph_type = EphemerisType.NAV then
        Except.ok (base (EphemerisSourceType.nav, -1, -1))
      else
        match ephem.file_epoch with
        | none => Except.error MsgError.fileEpochNone
        | some fe =>
            if ephem.file_source = "igu" then
              Except.ok (base (EphemerisSourceType.nasaUltraRapid, fe.week, int_trunc fe.tow))
            else if ephem.file_source = "Sta" then
              Except.ok (base (EphemerisSourceType.glonassIacUltraRapid, fe.week, int_trunc fe.tow))
            else
              Except.error (MsgError.unexpectedFileSource ephem.file_source)

/-- One recorded interaction with the external Kalman filter: a reset through
`init_state`, a `predict_and_observe` batch, or a pure `predict`. -/
inductive KFOp
  | reset (est_pos : List ℚ)
  | observe (t : ℚ) (kind : ObservationKind) (data : List Meas)
  | predict (t : ℚ)
deriving DecidableEq

/-- The filter feed at the end of `update_localizer`: submit the routed
batches when measurements exist, else a pure time update so the filter clock
still advances. -/
def kf_feed_ops (t : ℚ) (measurements : List Meas) : List KFOp :=
  if measurements.length > 0 then
    (kf_add_observations measurements).map (fun kd => KFOp.observe t kd.1 kd.2)
  else
    [KFOp.predict t]

/-- `Laikad.update_localizer`: when any validity check fails, reset from the
fix if one is available, else return without touching the filter; otherwise
(or after a reset) feed the filter.  Returns the filter state as the
orchestrator left it (reset applied; the numeric effect of predict/observe is
internal to the external filter and appears only in the operation trace). -/
def update_localizer (o : Oracles) (kf : GnssKf) (est_pos : List ℚ) (t : ℚ)
    (measurements : List Meas) : GnssKf × List KFOp :=
  if (kf_valid kf t).all id then
    (kf, kf_feed_ops t measurements)
  else
    if est_pos.length > 0 then
      let kf2 := init_gnss_localizer o est_pos kf
      (kf2, KFOp.reset est_pos :: kf_feed_ops t measurements)
    else
      (kf, [])

/-- One `value`/`std`/`valid` triple of the outgoing message.  The source
emits `sqrt(abs(diag))` as `std`; the square root is real-valued, so the
message here carries the covariance diagonal itself in `cov_diag`. -/
structure MeasurementPkt where
  value : List ℚ
  cov_diag : List ℚ
  valid : Bool
deriving DecidableEq

/-- The outgoing `gnssMeasurements` message. -/
structure GnssMsg where
  gpsWeek : ℤ
  gpsTimeOfWeek : ℚ
  positionECEF : MeasurementPkt
  velocityECEF : MeasurementPkt
  positionFixECEF : MeasurementPkt
  ubloxMonoTime : ℤ
  correctedMeasurements : List CorrectedMeasurementMsg
deriving DecidableEq

/-- The orbit-fetch step at the top of the measurement branch (lines 100-103):
when the report carries a valid week and auto-fetch is enabled, request orbits
for `GPSTime(week, tow) + SECS_IN_MIN`. -/
def fetch_step (o : Oracles) (s : LaikadState) (rep : MeasurementReport)
    (block : Bool) : LaikadState :=
  if 0 < rep.gpsWeek ∧ s.auto_fetch_orbits then
    (fetch_orbits o s (gps_time_secs rep.gpsWeek rep.rcvTow + SECS_IN_MIN) block).1
  else s

/-- The raw-decode / processing step (lines 105-106). -/
def processed_of (o : Oracles) (s : LaikadState) (rep : MeasurementReport) : List Meas :=
  o.process_measurements (o.read_raw_ublox rep) s.astro_dog

/-- Result of the measurement pipeline up to and including correction. -/
structure PrepResult where
  state : LaikadState
  corrected : List Meas
  est_pos : List ℚ

/-- The measurement-report pipeline before the localizer update: orbit fetch,
processing, position fix, correction (skipped when no fix is available). -/
def report_prep (o : Oracles) (s : LaikadState) (rep : MeasurementReport)
    (t : ℚ) (block : Bool) : PrepResult :=
  let s1 := fetch_step o s rep block
  let processed := processed_of o s1 rep
  let e := get_est_pos o s1 t processed
  let corrected :=
    if e.est_pos.length > 0 then
      o.correct_measurements processed e.est_pos e.state.astro_dog
    else []
  ⟨e.state, corrected, e.est_pos⟩

/-- The list comprehension `[create_measurement_msg(m) for m in corrected]`
(line 120): assembles the entries in order; the first exception aborts the
whole comprehension and propagates. -/
def build_meas_msgs : List Meas → Except MsgError (List CorrectedMeasurementMsg)
  | [] => Except.ok []
  | m :: rest =>
      match create_measurement_msg m with
      | Except.error e => Except.error e
      | Except.ok c =>
          match build_meas_msgs rest with
          | Except.error e => Except.error e
          | Except.ok cs => Except.ok (c :: cs)

/-- The measurement-report branch of `process_ublox_msg` (lines 97-132):
pipeline, localizer update, validity recheck, message assembly.  An exception
from `create_measurement_msg` propagates (there is no handler).  The `std`
fields emitted by the source are `sqrt(abs(...))` of the covariance
diagonals reported here. -/
def handle_report (o : Oracles) (s : LaikadState) (rep : MeasurementReport)
    (t : ℚ) (mono : ℤ) (block : Bool) :
    Except MsgError (LaikadState × GnssMsg × List KFOp) :=
  let p := report_prep o s rep t block
  let u := update_localizer o p.state.gnss_kf p.est_pos t p.corrected
  let s3 := { p.state with gnss_kf := u.1 }
  let kfValidAll := (kf_valid u.1 t).all id
  match build_meas_msgs p.corrected with
  | Except.error e => Except.error e
  | Except.ok meas_msgs =>
      Except.ok (s3,
        { gpsWeek := rep.gpsWeek,
          gpsTimeOfWeek := rep.rcvTow,
          positionECEF := ⟨ECEF_POS.map u.1.x, ECEF_POS.map u.1.p_diag, kfValidAll⟩,
          velocityECEF := ⟨ECEF_VELOCITY.map u.1.x, ECEF_VELOCITY.map u.1.p_diag, kfValidAll⟩,
          positionFixECEF := ⟨s3.last_pos_fix, s3.last_pos_residual,
                              decide (s3.last_pos_fix_t = some t)⟩,
          ubloxMonoTime := mono,
          correctedMeasurements := meas_msgs }, u.2)

/-- `Laikad.process_ublox_msg`, the top-level per-message handler.  The epoch
time is the monotonic receive time in seconds (`ublox_mono_time * 1e-9`).
Returns the updated orchestrator state, the emitted message if any (only the
measurement branch emits), and the Kalman-filter operation trace — or the
exception that escaped. -/
def process_ublox_msg (o : Oracles) (s : LaikadState) (msg : UbloxMsg)
    (ublox_mono_time : ℤ) (block : Bool) :
    Except MsgError (LaikadState × Option GnssMsg × List KFOp) :=
  let t : ℚ := ublox_mono_time / 1000000000
  match msg with
  | UbloxMsg.measurementReport rep =>
      match handle_report o s rep t ublox_mono_time block with
      | Except.error e => Except.error e
      | Except.ok r => Except.ok (r.1, some r.2.1, r.2.2)
  | UbloxMsg.ephemeris raw =>
      let ephem := o.convert_ublox_ephem raw
      let s1 := { s with astro_dog := { s.astro_dog with
        nav := add_store s.astro_dog.nav [(ephem.prn, [ephem])] } }
      Except.ok ((cache_ephemeris s1 ephem.epoch).1, none, [])
  | UbloxMsg.other => Except.ok (s, none, [])

/-! ## Concrete fixtures used to evaluate the definitions -/

/-- A cold-start orchestrator state: empty stores, uninitialized filter, no
cached fix, persistence and auto-fetch off. -/
def state0 : LaikadState :=
  { astro_dog := { orbits := [], nav := [], orbit_fetched_times := fun _ => false },
    gnss_kf := { filter_time := none, x := fun _ => 0,
                 x_finite := fun _ => true, p_diag := fun _ => 1 },
    auto_fetch_orbits := false,
    orbit_fetch_future := none,
    last_fetch_orbits_t := none,
    last_cached_t := none,
    save_ephemeris := false,
    last_pos_fix := [],
    last_pos_residual := [],
    last_pos_fix_t := none }

/-- A broadcast navigation ephemeris. -/
def eph_nav : Eph :=
  { prn := "G01", epoch := 0, eph_type := EphemerisType.NAV,
    file_epoch := none, file_source := "" }

/-- An orbit-product ephemeris with an unrecognized file-source tag. -/
def eph_bad_src : Eph :=
  { prn := "G02", epoch := 0, eph_type := EphemerisType.ULTRA_RAPID_ORBIT,
    file_epoch := some ⟨2214, 1000⟩, file_source := "xyz" }

/-- A GPS measurement with a nav ephemeris. -/
def meas_gps : Meas :=
  { constellation_id := ConstellationId.GPS, sv_id := 1, glonass_freq := 0,
    pr := 2, pr_std := 1, prr := 3, prr_std := 1,
    sat_pos := [1, 0, 0], sat_vel := [0, 0, 0], sat_ephemeris := some eph_nav }

/-- A GLONASS measurement with a nav ephemeris. -/
def meas_glonass : Meas :=
  { constellation_id := ConstellationId.GLONASS, sv_id := 2, glonass_freq := 1,
    pr := 2, pr_std := 1, prr := 3, prr_std := 1,
    sat_pos := [0, 1, 0], sat_vel := [0, 0, 0], sat_ephemeris := some eph_nav }

/-- A Galileo measurement (a constellation the router drops). -/
def meas_galileo : Meas :=
  { constellation_id := ConstellationId.GALILEO, sv_id := 3, glonass_freq := 0,
    pr := 2, pr_std := 1, prr := 3, prr_std := 1,
    sat_pos := [0, 0, 1], sat_vel := [0, 0, 0], sat_ephemeris := some eph_nav }

/-- A GPS measurement carrying the unrecognized-source ephemeris. -/
def meas_bad_src : Meas :=
  { meas_gps with sv_id := 4, sat_ephemeris := some eph_bad_src }

/-- Oracles whose external pipeline yields nothing: no raw measurements, no
processed or corrected measurements, a failing solver, a failing blocking
fetch. -/
def oracle0 : Oracles :=
  { read_raw_ublox := fun _ => [],
    process_measurements := fun _ _ => [],
    correct_measurements := fun _ _ _ => [],
    calc_pos_fix_gauss_newton := fun _ _ => ([], []),
    get_orbit_data_blocking := fun _ => none,
    convert_ublox_ephem := fun _ => eph_nav,
    x_initial := fun _ => 0,
    p_initial_diag := fun _ => 1 }

/-- A measurement report with no satellite week (so no orbit fetch is
triggered) and an empty raw payload. -/
def rep0 : MeasurementReport := { gpsWeek := 0, rcvTow := 0, raw := [] }

/-! ## Helper lemmas -/

/-- Unfolding of the shared 60 s throttle test. -/
theorem throttle_expired_iff (last : Option ℚ) (t : ℚ) :
    throttle_expired last t = true ↔
      (last = none ∨ ∃ l, last = some l ∧ SECS_IN_MIN < t - l) := by
  cases last with
  | none => simp [throttle_expired]
  | some l => simp [throttle_expired]

/-- Unfolding of the 2 s position-fix staleness test. -/
theorem pos_fix_stale_iff (last : Option ℚ) (t : ℚ) :
    pos_fix_stale last t = true ↔
      (last = none ∨ ∃ l, last = some l ∧ 2 ≤ |l - t|) := by
  cases last with
  | none => simp [pos_fix_stale]
  | some l => simp [pos_fix_stale]

/-! ## C7: ephemeris-cache write throttling -/

/-- C7: a cache-save request at satellite time `t` writes a snapshot iff
saving is enabled and (`last_cached_t` unset or `t - last_cached_t > 60`); on
a write `last_cached_t` becomes `t`; otherwise the state is untouched; in
particular a save 59 s after the last write is skipped and one 61 s after is
performed. -/
theorem C7_cache_write_throttle (s : LaikadState) (t T : ℚ) :
    ((cache_ephemeris s t).2 = true ↔
      (s.save_ephemeris = true ∧
        (s.last_cached_t = none ∨ ∃ l, s.last_cached_t = some l ∧ SECS_IN_MIN < t - l))) ∧
    ((cache_ephemeris s t).2 = true → (cache_ephemeris s t).1.last_cached_t = some t) ∧
    ((cache_ephemeris s t).2 = false → (cache_ephemeris s t).1 = s) ∧
    (s.save_ephemeris = true → s.last_cached_t = some T →
      (cache_ephemeris s (T + 59)).2 = false) ∧
    (s.save_ephemeris = true → s.last_cached_t = some T →
      (cache_ephemeris s (T + 61)).2 = true) := by
  have h59 : throttle_expired (some T) (T + 59) = false := by
    simp only [throttle_expired, decide_eq_false_iff_not, not_lt, SECS_IN_MIN]
    linarith
  have h61 : throttle_expired (some T) (T + 61) = true := by
    simp only [throttle_expired, decide_eq_true_eq, SECS_IN_MIN]
    linarith
  refine ⟨?_, ?_, ?_, ?_, ?_⟩
  · unfold cache_ephemeris
    split
    · next h =>
        simp only [Bool.and_eq_true] at h
        simp only [true_iff]
        exact ⟨h.1, (throttle_expired_iff _ _).mp h.2⟩
    · next h =>
        simp only [Bool.and_eq_true, not_and] at h
        simp only [Bool.false_eq_true, false_iff, not_and]
        intro h1 h2
        exact (h h1) ((throttle_expired_iff _ _).mpr h2)
  · unfold cache_ephemeris
    split
    · intro _; rfl
    · intro hc; exact absurd hc (by simp)
  · unfold cache_ephemeris
    split
    · intro hc; exact absurd hc (by simp)
    · intro _; rfl
  · intro hs hT
    unfold cache_ephemeris
    rw [hT, h59]
    simp
  · intro hs hT
    unfold cache_ephemeris
    rw [hT, h61]
    simp [hs]

/-- Witness for C7 at a concrete state: with saving enabled and a last write
at `T = 100`, a save at 159 is skipped and one at 161 writes and records
`last_cached_t = 161`. -/
theorem C7_cache_write_throttle_witness :
    (cache_ephemeris { state0 with save_ephemeris := true, last_cached_t := some 100 } (100 + 59)).2 = false ∧
    (cache_ephemeris { state0 with save_ephemeris := true, last_cached_t := some 100 } (100 + 61)).2 = true := by
  have h := C7_cache_write_throttle
    { state0 with save_ephemeris := true, last_cached_t := some 100 } (100 + 61) 100
  exact ⟨h.2.2.2.1 rfl rfl, h.2.2.2.2 rfl rfl⟩

/-! ## Characterizations of `get_est_pos` -/

/-- When the staleness test fails, `get_est_pos` is a pure read of the cached
fix. -/
theorem get_est_pos_not_stale (o : Oracles) (s : LaikadState) (t : ℚ)
    (processed : List Meas) (h : pos_fix_stale s.last_pos_fix_t t = false) :
    get_est_pos o s t processed = ⟨s, s.last_pos_fix, none⟩ := by
  simp only [get_est_pos, h]
  simp

/-- When the staleness test holds, a solve is attempted with the
GLONASS-dependent minimum measurement count. -/
theorem get_est_pos_stale (o : Oracles) (s : LaikadState) (t : ℚ)
    (processed : List Meas) (h : pos_fix_stale s.last_pos_fix_t t = true) :
    (get_est_pos o s t processed).solve_min = some (min_measurements_for processed) := by
  simp only [get_est_pos, h, if_true]
  split <;> rfl

/-! ## C5: position-fix solve throttling -/

/-- C5: a new position-fix solve is attempted iff the cached fix timestamp is
unset or at least 2 s away from the epoch time; when no solve is attempted the
state is untouched and the previously cached fix is returned unchanged.  The
spec scenario follows: with the cached fix stamped at `t`, a call at `t + 1`
attempts no solve and returns the identical cached fix, while a call at
`t + 3` attempts a new solve. -/
theorem C5_pos_fix_recompute (o : Oracles) (s : LaikadState) (t : ℚ)
    (processed : List Meas) :
    ((get_est_pos o s t processed).solve_min.isSome = true ↔
      (s.last_pos_fix_t = none ∨ ∃ l, s.last_pos_fix_t = some l ∧ 2 ≤ |l - t|)) ∧
    ((get_est_pos o s t processed).solve_min = none →
      ((get_est_pos o s t processed).state = s ∧
       (get_est_pos o s t processed).est_pos = s.last_pos_fix)) ∧
    (s.last_pos_fix_t = some t →
      ((get_est_pos o s (t + 1) processed).solve_min = none ∧
       (get_est_pos o s (t + 1) processed).est_pos = s.last_pos_fix ∧
       (get_est_pos o s (t + 3) processed).solve_min.isSome = true)) := by
  have stale1 : ∀ u : ℚ, s.last_pos_fix_t = some u → pos_fix_stale s.last_pos_fix_t (u + 1) = false := by
    intro u hu
    rw [hu]
    simp only [pos_fix_stale, decide_eq_false_iff_not, not_le]
    rw [abs_lt]
    constructor <;> linarith
  have stale3 : ∀ u : ℚ, s.last_pos_fix_t = some u → pos_fix_stale s.last_pos_fix_t (u + 3) = true := by
    intro u hu
    rw [hu]
    simp only [pos_fix_stale, decide_eq_true_eq]
    rw [abs_sub_comm, show u + 3 - u = 3 by ring]
    rw [abs_of_pos (by norm_num : (0:ℚ) < 3)]
    norm_num
  refine ⟨?_, ?_, ?_⟩
  · rw [← pos_fix_stale_iff _ t]
    cases h : pos_fix_stale s.last_pos_fix_t t with
    | false => simp [get_est_pos_not_stale o s t processed h]
    | true => simp [get_est_pos_stale o s t processed h]
  · intro hn
    cases h : pos_fix_stale s.last_pos_fix_t t with
    | false => rw [get_est_pos_not_stale o s t processed h]; exact ⟨rfl, rfl⟩
    | true => rw [get_est_pos_stale o s t processed h] at hn; exact absurd hn (by simp)
  · intro ht
    refine ⟨?_, ?_, ?_⟩
    · rw [get_est_pos_not_stale o s (t + 1) processed (stale1 t ht)]
    · rw [get_est_pos_not_stale o s (t + 1) processed (stale1 t ht)]
    · rw [get_est_pos_stale o s (t + 3) processed (stale3 t ht)]
      rfl

/-- Witness for C5: with the cached fix `[1, 2, 3]` stamped at time 10, the
call at time 11 attempts no solve and returns the cached fix; the call at
time 13 attempts a solve. -/
theorem C5_pos_fix_recompute_witness :
    (get_est_pos oracle0 { state0 with last_pos_fix := [1, 2, 3], last_pos_fix_t := some 10 } (10 + 1) []).solve_min = none ∧
    (get_est_pos oracle0 { state0 with last_pos_fix := [1, 2, 3], last_pos_fix_t := some 10 } (10 + 1) []).est_pos = [1, 2, 3] ∧
    (get_est_pos oracle0 { state0 with last_pos_fix := [1, 2, 3], last_pos_fix_t := some 10 } (10 + 3) []).solve_min.isSome = true :=
  (C5_pos_fix_recompute oracle0
    { state0 with last_pos_fix := [1, 2, 3], last_pos_fix_t := some 10 } 10 []).2.2 rfl

/-! ## C9: solver minimum-measurement requirement -/

/-- C9: whenever `get_est_pos` attempts a solve, the `min_measurements` bound
passed to the least-squares solver is 5 if any processed measurement in the
batch is GLONASS, and 4 otherwise. -/
theorem C9_solver_min_measurements (o : Oracles) (s : LaikadState) (t : ℚ)
    (processed : List Meas) (n : Nat)
    (h : (get_est_pos o s t processed).solve_min = some n) :
    (n = 5 ∧ ∃ p ∈ processed, p.constellation_id = ConstellationId.GLONASS) ∨
    (n = 4 ∧ ∀ p ∈ processed, p.constellation_id ≠ ConstellationId.GLONASS) := by
  have hn : n = min_measurements_for processed := by
    cases hs : pos_fix_stale s.last_pos_fix_t t with
    | false => rw [get_est_pos_not_stale o s t processed hs] at h; exact absurd h (by simp)
    | true =>
        rw [get_est_pos_stale o s t processed hs] at h
        exact (Option.some_injective _ h).symm
  subst hn
  unfold min_measurements_for
  split
  · next hg =>
      left
      refine ⟨rfl, ?_⟩
      simp only [List.any_eq_true, decide_eq_true_eq] at hg
      exact hg
  · next hg =>
      right
      refine ⟨rfl, ?_⟩
      simp only [List.any_eq_true, decide_eq_true_eq, not_exists, not_and] at hg
      intro p hp
      exact fun hc => (hg p hp).elim hc

/-- Witness for C9: a solve over one GLONASS and one GPS measurement is
attempted with a minimum of 5 measurements. -/
theorem C9_solver_min_measurements_witness :
    (5 = 5 ∧ ∃ p ∈ [meas_glonass, meas_gps], p.constellation_id = ConstellationId.GLONASS) ∨
    (5 = 4 ∧ ∀ p ∈ [meas_glonass, meas_gps], p.constellation_id ≠ ConstellationId.GLONASS) :=
  C9_solver_min_measurements oracle0 state0 0 [meas_glonass, meas_gps] 5 (by decide)

/-! ## C6: measurement routing -/

/-- C6: the router partitions corrected measurements into a GPS bucket and a
GLONASS bucket (other constellations appear in no batch), submits each
non-empty bucket exactly twice — once under its pseudorange kind and once
under its pseudorange-rate kind, with the same measurement list — never
submits a zero-length batch, and with zero GLONASS and nonzero GPS
measurements submits exactly the two GPS-tagged batches. -/
theorem C6_router_batches (measurements : List Meas) :
    (∀ kd ∈ kf_add_observations measurements, kd.2 ≠ []) ∧
    (gps_bucket measurements ≠ [] →
      ((ObservationKind.PSEUDORANGE_GPS, gps_bucket measurements) ∈ kf_add_observations measurements ∧
       (ObservationKind.PSEUDORANGE_RATE_GPS, gps_bucket measurements) ∈ kf_add_observations measurements)) ∧
    (glonass_bucket measurements ≠ [] →
      ((ObservationKind.PSEUDORANGE_GLONASS, glonass_bucket measurements) ∈ kf_add_observations measurements ∧
       (ObservationKind.PSEUDORANGE_RATE_GLONASS, glonass_bucket measurements) ∈ kf_add_observations measurements)) ∧
    (∀ m ∈ measurements, m.constellation_id ≠ ConstellationId.GPS →
      m.constellation_id ≠ ConstellationId.GLONASS →
      ∀ kd ∈ kf_add_observations measurements, m ∉ kd.2) ∧
    ((kf_add_observations measurements).length =
      (if gps_bucket measurements = [] then 0 else 2) +
      (if glonass_bucket measurements = [] then 0 else 2)) ∧
    (glonass_bucket measurements = [] → gps_bucket measurements ≠ [] →
      kf_add_observations measurements =
        [(ObservationKind.PSEUDORANGE_GPS, gps_bucket measurements),
         (ObservationKind.PSEUDORANGE_RATE_GPS, gps_bucket measurements)]) := by
  refine ⟨?_, ?_, ?_, ?_, ?_, ?_⟩
  · intro kd hkd
    unfold kf_add_observations at hkd
    rw [List.mem_filter] at hkd
    have := hkd.2
    simp only [decide_eq_true_eq] at this
    intro hnil
    rw [hnil] at this
    exact absurd this (by simp)
  · intro hg
    have hlen : 0 < (gps_bucket measurements).length := List.length_pos.mpr hg
    unfold kf_add_observations
    constructor <;>
      · rw [List.mem_filter]
        exact ⟨by simp, by simpa using hlen⟩
  · intro hg
    have hlen : 0 < (glonass_bucket measurements).length := List.length_pos.mpr hg
    unfold kf_add_observations
    constructor <;>
      · rw [List.mem_filter]
        exact ⟨by simp, by simpa using hlen⟩
  · intro m hm hgps hglo kd hkd
    unfold kf_add_observations at hkd
    rw [List.mem_filter] at hkd
    have hmem := hkd.1
    simp only [List.mem_cons, List.not_mem_nil, or_false] at hmem
    have hgpsb : m ∉ gps_bucket measurements := by
      unfold gps_bucket
      rw [List.mem_filter]
      rintro ⟨-, h2⟩
      simp only [decide_eq_true_eq] at h2
      exact hgps h2
    have hglob : m ∉ glonass_bucket measurements := by
      unfold glonass_bucket
      rw [List.mem_filter]
      rintro ⟨-, h2⟩
      simp only [decide_eq_true_eq] at h2
      exact hglo h2
    rcases hmem with h | h | h | h <;> rw [h] <;> assumption
  · by_cases hg : gps_bucket measurements = [] <;>
      by_cases hl : glonass_bucket measurements = [] <;>
      · unfold kf_add_observations
        simp [hg, hl, List.length_pos.mpr, List.filter,
              List.isEmpty_iff, *]
  · intro hl hg
    have hlen : 0 < (gps_bucket measurements).length := List.length_pos.mpr hg
    unfold kf_add_observations
    simp [hl, List.filter, Nat.pos_iff_ne_zero, List.length_eq_zero, hg]

/-- Witness for C6: one GPS and one Galileo measurement and no GLONASS yield
exactly the two GPS-tagged batches, both carrying only the GPS measurement. -/
theorem C6_router_batches_witness :
    kf_add_observations [meas_gps, meas_galileo] =
      [(ObservationKind.PSEUDORANGE_GPS, gps_bucket [meas_gps, meas_galileo]),
       (ObservationKind.PSEUDORANGE_RATE_GPS, gps_bucket [meas_gps, meas_galileo])] :=
  (C6_router_batches [meas_gps, meas_galileo]).2.2.2.2.2 (by decide) (by decide)

/-! ## Characterizations of `fetch_orbits` -/

/-- A background task is submitted exactly when the coverage and throttle
guard holds, blocking mode is off, and no future is outstanding. -/
theorem fetch_orbits_started (o : Oracles) (s : LaikadState) (t : ℚ) (block : Bool) :
    (fetch_orbits o s t block).2.started_task =
      (!(s.astro_dog.orbit_fetched_times t)
        && throttle_expired s.last_fetch_orbits_t t
        && !block && s.orbit_fetch_future.isNone) := by
  unfold fetch_orbits
  split
  · next hguard =>
      rw [hguard]
      cases block with
      | true => cases o.get_orbit_data_blocking t <;> simp
      | false =>
          cases hf : s.orbit_fetch_future with
          | none => simp
          | some f =>
              cases f with
              | pending => simp
              | done r => cases r <;> simp [cache_ephemeris]
  · next hguard =>
      simp only [Bool.not_eq_true] at hguard
      rw [hguard]
      simp

/-- When the guard fails, `fetch_orbits` is a no-op. -/
theorem fetch_orbits_guard_false (o : Oracles) (s : LaikadState) (t : ℚ) (block : Bool)
    (h : (!(s.astro_dog.orbit_fetched_times t)
          && throttle_expired s.last_fetch_orbits_t t) = false) :
    fetch_orbits o s t block = (s, ⟨false, false⟩) := by
  unfold fetch_orbits
  rw [h]
  rfl

/-- Harvesting a completed-but-failed background fetch: the throttle stamp
and the future slot are updated, nothing else happens. -/
theorem fetch_orbits_failed_poll (o : Oracles) (s : LaikadState) (t : ℚ)
    (hguard : (!(s.astro_dog.orbit_fetched_times t)
               && throttle_expired s.last_fetch_orbits_t t) = true)
    (hfut : s.orbit_fetch_future = some (OrbitFetch.done none)) :
    fetch_orbits o s t false =
      ({ s with last_fetch_orbits_t := some t, orbit_fetch_future := none },
       ⟨false, false⟩) := by
  unfold fetch_orbits
  rw [hguard, hfut]
  rfl

/-! ## C3: orbit-fetch request throttling -/

/-- C3: a non-blocking request starts a new background task only if `t` is
not covered by the fetched-time records and (`last_fetch_orbits_t` unset or
`t - last_fetch_orbits_t > 60`); with `last_fetch_orbits_t = T`, a request at
`T + 30` starts no task while a request at `T + 61` (uncovered, no future
outstanding) does; a request while a task is pending starts no second task. -/
theorem C3_fetch_request_throttle (o : Oracles) (s : LaikadState) (T : ℚ) :
    (∀ t block, (fetch_orbits o s t block).2.started_task = true →
      (s.astro_dog.orbit_fetched_times t = false ∧
       (s.last_fetch_orbits_t = none ∨
        ∃ l, s.last_fetch_orbits_t = some l ∧ SECS_IN_MIN < t - l))) ∧
    (s.last_fetch_orbits_t = some T →
      (fetch_orbits o s (T + 30) false).2.started_task = false) ∧
    (s.last_fetch_orbits_t = some T →
     s.astro_dog.orbit_fetched_times (T + 61) = false →
     s.orbit_fetch_future = none →
      (fetch_orbits o s (T + 61) false).2.started_task = true) ∧
    (∀ t, s.orbit_fetch_future = some OrbitFetch.pending →
      (fetch_orbits o s t false).2.started_task = false) := by
  refine ⟨?_, ?_, ?_, ?_⟩
  · intro t block h
    rw [fetch_orbits_started] at h
    simp only [Bool.and_eq_true, Bool.not_eq_eq_eq_not, Bool.not_true] at h
    exact ⟨h.1.1.1, (throttle_expired_iff _ _).mp h.1.1.2⟩
  · intro hT
    rw [fetch_orbits_started, hT]
    have : throttle_expired (some T) (T + 30) = false := by
      simp only [throttle_expired, decide_eq_false_iff_not, not_lt, SECS_IN_MIN]
      linarith
    rw [this]
    simp
  · intro hT hcov hfut
    rw [fetch_orbits_started, hT, hcov, hfut]
    have : throttle_expired (some T) (T + 61) = true := by
      simp only [throttle_expired, decide_eq_true_eq, SECS_IN_MIN]
      linarith
    rw [this]
    rfl
  · intro t hfut
    rw [fetch_orbits_started, hfut]
    simp

/-- A state whose last orbit fetch happened at time 1000. -/
def state_fetch1000 : LaikadState := { state0 with last_fetch_orbits_t := some 1000 }

/-- The same state with a background fetch task still pending. -/
def state_fetch1000_pending : LaikadState :=
  { state_fetch1000 with orbit_fetch_future := some OrbitFetch.pending }

/-- Witness for C3: with `last_fetch_orbits_t = 1000`, no covered times and
no outstanding future, a request at 1030 starts no task, a request at 1061
starts one, and with a pending future a request at 1061 starts none. -/
theorem C3_fetch_request_throttle_witness :
    (fetch_orbits oracle0 state_fetch1000 (1000 + 30) false).2.started_task = false ∧
    (fetch_orbits oracle0 state_fetch1000 (1000 + 61) false).2.started_task = true ∧
    (fetch_orbits oracle0 state_fetch1000_pending (1000 + 61) false).2.started_task = false := by
  refine ⟨?_, ?_, ?_⟩
  · exact (C3_fetch_request_throttle oracle0 state_fetch1000 1000).2.1 rfl
  · exact (C3_fetch_request_throttle oracle0 state_fetch1000 1000).2.2.1 rfl rfl rfl
  · exact (C3_fetch_request_throttle oracle0 state_fetch1000_pending 1000).2.2.2 (1000 + 61) rfl

/-! ## C10: frame effect of a failed background fetch -/

/-- C10: polling a completed background fetch that yielded no data leaves the
orbit store, the fetched-time records, the cache and its stamp unchanged,
clears the future, and still sets `last_fetch_orbits_t := t` — so any further
request within the next 60 s is a complete no-op. -/
theorem C10_failed_fetch_frame (o : Oracles) (s : LaikadState) (t : ℚ)
    (hguard : (!(s.astro_dog.orbit_fetched_times t)
               && throttle_expired s.last_fetch_orbits_t t) = true)
    (hfut : s.orbit_fetch_future = some (OrbitFetch.done none)) :
    ((fetch_orbits o s t false).1.astro_dog.orbits = s.astro_dog.orbits) ∧
    ((fetch_orbits o s t false).1.astro_dog.orbit_fetched_times
       = s.astro_dog.orbit_fetched_times) ∧
    ((fetch_orbits o s t false).2.cache_written = false) ∧
    ((fetch_orbits o s t false).1.last_cached_t = s.last_cached_t) ∧
    ((fetch_orbits o s t false).1.last_fetch_orbits_t = some t) ∧
    ((fetch_orbits o s t false).1.orbit_fetch_future = none) ∧
    (∀ u : ℚ, u - t ≤ SECS_IN_MIN →
      fetch_orbits o ((fetch_orbits o s t false).1) u false
        = ((fetch_orbits o s t false).1, ⟨false, false⟩)) := by
  rw [fetch_orbits_failed_poll o s t hguard hfut]
  refine ⟨rfl, rfl, rfl, rfl, rfl, rfl, ?_⟩
  intro u hu
  apply fetch_orbits_guard_false
  have : throttle_expired (some t) u = false := by
    simp only [throttle_expired, decide_eq_false_iff_not, not_lt]
    exact hu
  simp [this]

/-- A state holding a completed background fetch that yielded no data. -/
def state_fetch_failed : LaikadState :=
  { state0 with orbit_fetch_future := some (OrbitFetch.done none) }

/-- Witness for C10: a failed fetch polled at time 2000 changes no store and
writes no cache but stamps `last_fetch_orbits_t = 2000`, and a request at
2059 is then a no-op. -/
theorem C10_failed_fetch_frame_witness :
    ((fetch_orbits oracle0 state_fetch_failed 2000 false).1.astro_dog.orbits = []) ∧
    ((fetch_orbits oracle0 state_fetch_failed 2000 false).2.cache_written = false) ∧
    ((fetch_orbits oracle0 state_fetch_failed 2000 false).1.last_fetch_orbits_t = some 2000) ∧
    (fetch_orbits oracle0 ((fetch_orbits oracle0 state_fetch_failed 2000 false).1) 2059 false
      = ((fetch_orbits oracle0 state_fetch_failed 2000 false).1, ⟨false, false⟩)) := by
  have h := C10_failed_fetch_frame oracle0 state_fetch_failed 2000 rfl rfl
  exact ⟨h.1, h.2.2.1, h.2.2.2.2.1, h.2.2.2.2.2.2 2059 (by norm_num [SECS_IN_MIN])⟩

/-! ## C4: filter reset from a position fix -/

/-- C4: when any validity check fails and a (3-component) position fix is
available, `update_localizer` resets the filter: the first recorded operation
is the reset, the position sub-state is reinitialized to the fix with its
covariance diagonal set to `1000 ** 2`, and every other component of the
state vector and covariance diagonal keeps the model's default initial
value. -/
theorem C4_reset_from_fix (o : Oracles) (kf : GnssKf) (est_pos : List ℚ) (t : ℚ)
    (ms : List Meas)
    (hv : (kf_valid kf t).all id = false)
    (hp : est_pos.length = 3) :
    ((update_localizer o kf est_pos t ms).2.head? = some (KFOp.reset est_pos)) ∧
    (∀ i ∈ ECEF_POS, (update_localizer o kf est_pos t ms).1.x i = est_pos.getD i 0) ∧
    (∀ i ∈ ECEF_POS, (update_localizer o kf est_pos t ms).1.p_diag i = 1000 ^ 2) ∧
    (∀ i, i ∉ ECEF_POS → (update_localizer o kf est_pos t ms).1.x i = o.x_initial i) ∧
    (∀ i, i ∉ ECEF_POS → (update_localizer o kf est_pos t ms).1.p_diag i = o.p_initial_diag i) := by
  have hpos : est_pos.length > 0 := by rw [hp]; norm_num
  have hbranch : update_localizer o kf est_pos t ms =
      (init_gnss_localizer o est_pos kf, KFOp.reset est_pos :: kf_feed_ops t ms) := by
    unfold update_localizer
    rw [hv]
    simp [hpos]
  rw [hbranch]
  refine ⟨rfl, ?_, ?_, ?_, ?_⟩
  · intro i hi; simp [init_gnss_localizer, hi]
  · intro i hi; simp [init_gnss_localizer, hi]
  · intro i hi; simp [init_gnss_localizer, hi]
  · intro i hi; simp [init_gnss_localizer, hi]

/-- Witness for C4: resetting the uninitialized filter from the fix
`[1, 2, 3]` stores the fix in components 0-2, sets their covariance diagonal
to `1000 ** 2`, and leaves components 3 and 7 at the model defaults. -/
theorem C4_reset_from_fix_witness :
    ((update_localizer oracle0 state0.gnss_kf [1, 2, 3] 0 []).2.head?
        = some (KFOp.reset [1, 2, 3])) ∧
    (update_localizer oracle0 state0.gnss_kf [1, 2, 3] 0 []).1.x 1 = 2 ∧
    (update_localizer oracle0 state0.gnss_kf [1, 2, 3] 0 []).1.p_diag 2 = 1000 ^ 2 ∧
    (update_localizer oracle0 state0.gnss_kf [1, 2, 3] 0 []).1.x 3 = oracle0.x_initial 3 ∧
    (update_localizer oracle0 state0.gnss_kf [1, 2, 3] 0 []).1.p_diag 7 = oracle0.p_initial_diag 7 := by
  have h := C4_reset_from_fix oracle0 state0.gnss_kf [1, 2, 3] 0 [] (by decide) rfl
  exact ⟨h.1, h.2.1 1 (by decide), h.2.2.1 2 (by decide),
         h.2.2.2.1 3 (by decide), h.2.2.2.2 7 (by decide)⟩

/-! ## C2: corrupt persisted cache crashes startup -/

/-- The parse oracle for corrupt persisted bytes: `json.loads` raises a
decode error on any input. -/
def corrupt_parse : String → ParseOutcome := fun _ => ParseOutcome.decodeError

/-- A startup state with ephemeris persistence enabled. -/
def state_persist : LaikadState := { state0 with save_ephemeris := true }

/-- C2 (code bug): with persistence enabled and corrupt cache bytes stored,
`load_cache` does NOT return cleanly — the decode error is caught, but the
debug-log line after the handler subscripts the raw bytes and raises a
TypeError that escapes to the caller, contradicting the documented
never-raises behavior. -/
theorem C2_corrupt_cache_raises :
    load_cache state_persist (some "corrupt bytes") corrupt_parse
      = Except.error LoadError.typeError := rfl

/-! ## Frame lemmas for the measurement pipeline -/

/-- `cache_ephemeris` never touches the filter state. -/
theorem cache_ephemeris_gnss_kf (s : LaikadState) (t : ℚ) :
    (cache_ephemeris s t).1.gnss_kf = s.gnss_kf := by
  unfold cache_ephemeris
  split <;> rfl

/-- `fetch_orbits` never touches the filter state. -/
theorem fetch_orbits_gnss_kf (o : Oracles) (s : LaikadState) (t : ℚ) (block : Bool) :
    (fetch_orbits o s t block).1.gnss_kf = s.gnss_kf := by
  unfold fetch_orbits
  split
  · cases block with
    | true =>
        cases o.get_orbit_data_blocking t with
        | none => rfl
        | some ret => simp [cache_ephemeris_gnss_kf]
    | false =>
        cases s.orbit_fetch_future with
        | none => rfl
        | some f =>
            cases f with
            | pending => rfl
            | done r =>
                cases r with
                | none => rfl
                | some ret => simp [cache_ephemeris_gnss_kf]
  · rfl

/-- The orbit-fetch step of the measurement branch never touches the filter
state. -/
theorem fetch_step_gnss_kf (o : Oracles) (s : LaikadState) (rep : MeasurementReport)
    (block : Bool) : (fetch_step o s rep block).gnss_kf = s.gnss_kf := by
  unfold fetch_step
  split
  · rw [fetch_orbits_gnss_kf]
  · rfl

/-- `get_est_pos` never touches the filter state. -/
theorem get_est_pos_gnss_kf (o : Oracles) (s : LaikadState) (t : ℚ)
    (processed : List Meas) : (get_est_pos o s t processed).state.gnss_kf = s.gnss_kf := by
  simp only [get_est_pos]
  split
  · split <;> rfl
  · rfl

/-- The pipeline before the localizer update never touches the filter
state. -/
theorem report_prep_gnss_kf (o : Oracles) (s : LaikadState) (rep : MeasurementReport)
    (t : ℚ) (block : Bool) :
    (report_prep o s rep t block).state.gnss_kf = s.gnss_kf := by
  simp only [report_prep]
  rw [get_est_pos_gnss_kf, fetch_step_gnss_kf]

/-- Without a position fix the correction step is skipped and the corrected
list is empty. -/
theorem report_prep_no_fix_corrected (o : Oracles) (s : LaikadState)
    (rep : MeasurementReport) (t : ℚ) (block : Bool)
    (h : (report_prep o s rep t block).est_pos = []) :
    (report_prep o s rep t block).corrected = [] := by
  simp only [report_prep] at h ⊢
  rw [h]
  simp

/-- With no fix available and a failing validity vector, `update_localizer`
returns without touching the filter: no operations, state unchanged. -/
theorem update_localizer_skip (o : Oracles) (kf : GnssKf) (t : ℚ) (ms : List Meas)
    (hv : (kf_valid kf t).all id = false) :
    update_localizer o kf [] t ms = (kf, []) := by
  unfold update_localizer
  rw [hv]
  simp

/-! ## C1: epoch with failing validity checks and no position fix -/

/-- Projection: the operation trace of a handler step, if it did not raise. -/
def step_ops (r : Except MsgError (LaikadState × Option GnssMsg × List KFOp)) :
    Option (List KFOp) :=
  match r with
  | Except.ok v => some v.2.2
  | Except.error _ => none

/-- Projection: the filter state after a handler step, if it did not raise. -/
def step_kf (r : Except MsgError (LaikadState × Option GnssMsg × List KFOp)) :
    Option GnssKf :=
  match r with
  | Except.ok v => some v.1.gnss_kf
  | Except.error _ => none

/-- Projection: whether a handler step emitted a message, if it did not
raise. -/
def step_emitted (r : Except MsgError (LaikadState × Option GnssMsg × List KFOp)) :
    Option Bool :=
  match r with
  | Except.ok v => some v.2.1.isSome
  | Except.error _ => none

/-- Projection: the position-validity flag of the emitted message, if a
message was emitted. -/
def step_msg_valid (r : Except MsgError (LaikadState × Option GnssMsg × List KFOp)) :
    Option Bool :=
  match r with
  | Except.ok v => v.2.1.map fun m => m.positionECEF.valid
  | Except.error _ => none

/-- C1 (amended): if the three-way validity vector is not all-true at the
epoch time and the pipeline yields no position fix, the handler performs no
filter operation at all (no reset, no predict, no observe) and leaves the
filter state unchanged — but it still emits a `gnssMeasurements` message for
the epoch, whose position/velocity validity flag is false. -/
theorem C1_no_fix_skips_filter (o : Oracles) (s : LaikadState)
    (rep : MeasurementReport) (mono : ℤ) (block : Bool)
    (hfix : (report_prep o s rep ((mono : ℚ) / 1000000000) block).est_pos = [])
    (hv : (kf_valid s.gnss_kf ((mono : ℚ) / 1000000000)).all id = false) :
    step_ops (process_ublox_msg o s (UbloxMsg.measurementReport rep) mono block)
        = some [] ∧
    step_kf (process_ublox_msg o s (UbloxMsg.measurementReport rep) mono block)
        = some s.gnss_kf ∧
    step_emitted (process_ublox_msg o s (UbloxMsg.measurementReport rep) mono block)
        = some true ∧
    step_msg_valid (process_ublox_msg o s (UbloxMsg.measurementReport rep) mono block)
        = some false := by
  have hcor := report_prep_no_fix_corrected o s rep ((mono : ℚ) / 1000000000) block hfix
  have hkf := report_prep_gnss_kf o s rep ((mono : ℚ) / 1000000000) block
  simp only [process_ublox_msg, handle_report]
  rw [hfix, hcor, hkf, update_localizer_skip o s.gnss_kf ((mono : ℚ) / 1000000000) [] hv]
  simp only [build_meas_msgs]
  exact ⟨rfl, rfl, rfl, by simp [step_msg_valid, hv]⟩

/-- Counterexample to C1 as stated: at a cold-start state (uninitialized
filter, hence a failing validity vector) with an empty pipeline (no cached
fix and a failing solver), the handler leaves the filter untouched but still
returns a `gnssMeasurements` message — the claim says no estimate message is
emitted in this situation. -/
theorem C1_no_fix_still_emits_counterexample :
    (kf_valid state0.gnss_kf 0).all id = false ∧
    state0.last_pos_fix = [] ∧
    (report_prep oracle0 state0 rep0 0 false).est_pos = [] ∧
    step_ops (process_ublox_msg oracle0 state0 (UbloxMsg.measurementReport rep0) 0 false)
        = some [] ∧
    step_emitted (process_ublox_msg oracle0 state0 (UbloxMsg.measurementReport rep0) 0 false)
        = some true := by
  refine ⟨by decide, rfl, by decide, ?_, ?_⟩ <;> rfl

/-- Witness for C1 at the cold-start input: the hypotheses hold and the
conclusion follows by the theorem. -/
theorem C1_no_fix_skips_filter_witness :
    step_ops (process_ublox_msg oracle0 state0 (UbloxMsg.measurementReport rep0) 0 false)
        = some [] ∧
    step_kf (process_ublox_msg oracle0 state0 (UbloxMsg.measurementReport rep0) 0 false)
        = some state0.gnss_kf ∧
    step_emitted (process_ublox_msg oracle0 state0 (UbloxMsg.measurementReport rep0) 0 false)
        = some true ∧
    step_msg_valid (process_ublox_msg oracle0 state0 (UbloxMsg.measurementReport rep0) 0 false)
        = some false :=
  C1_no_fix_skips_filter oracle0 state0 rep0 0 false (by decide) (by decide)

/-! ## C8: unrecognized ephemeris source aborts message assembly -/

/-- The assertion contract of `create_measurement_msg`: the corrected
measurement carries an ephemeris, and an orbit-product ephemeris carries its
file epoch (these are the two `assert` statements, guaranteed by the external
correction pipeline). -/
def eph_contract (m : Meas) : Bool :=
  match m.sat_ephemeris with
  | none => false
  | some e =>
      if e.eph_type = EphemerisType.NAV then true else e.file_epoch.isSome

/-- Does this corrected measurement carry an orbit-product ephemeris whose
file-source tag is outside the recognized set, i.e. neither the nasa
ultra-rapid tag nor the glonass IAC tag? -/
def bad_source (m : Meas) : Bool :=
  match m.sat_ephemeris with
  | none => false
  | some e =>
      if e.eph_type = EphemerisType.NAV then false
      else decide (e.file_source ≠ "igu" ∧ e.file_source ≠ "Sta")

/-- Projection: did the computation raise? -/
def step_raises {A : Type} (r : Except MsgError A) : Bool :=
  match r with
  | Except.ok _ => false
  | Except.error _ => true

/-- Projection: did the computation raise the unrecognized-file-source
contract violation? -/
def step_raises_contract {A : Type} (r : Except MsgError A) : Bool :=
  match r with
  | Except.ok _ => false
  | Except.error e => e.is_contract_violation

/-- Within the assertion contract, `create_measurement_msg` fails exactly on
an unrecognized file source, and that failure is the contract violation. -/
theorem create_measurement_msg_err (m : Meas) (hc : eph_contract m = true) :
    (match create_measurement_msg m with
     | Except.error e => bad_source m = true ∧ e.is_contract_violation = true
     | Except.ok _ => bad_source m = false) := by
  cases hm : m.sat_ephemeris with
  | none => simp [eph_contract, hm] at hc
  | some e =>
      simp only [eph_contract, hm] at hc
      simp only [bad_source, create_measurement_msg, hm]
      by_cases hnav : e.eph_type = EphemerisType.NAV
      · simp [hnav]
      · simp only [if_neg hnav] at hc ⊢
        cases hfe : e.file_epoch with
        | none => rw [hfe] at hc; simp at hc
        | some fe =>
            simp only [hfe]
            by_cases higu : e.file_source = "igu"
            · simp [higu]
            · by_cases hsta : e.file_source = "Sta"
              · simp [hsta, higu]
              · simp [higu, hsta, MsgError.is_contract_violation]

/-- Lifting of `create_measurement_msg_err` to the list comprehension: within
the assertion contract, assembly fails iff some entry has an unrecognized
file source, and any failure is the contract violation. -/
theorem build_meas_msgs_err (l : List Meas) (hc : l.all eph_contract = true) :
    step_raises (build_meas_msgs l) = l.any bad_source ∧
    step_raises_contract (build_meas_msgs l) = l.any bad_source := by
  induction l with
  | nil => exact ⟨rfl, rfl⟩
  | cons m rest ih =>
      simp only [List.all_cons, Bool.and_eq_true] at hc
      have hm := create_measurement_msg_err m hc.1
      have hrest := ih hc.2
      simp only [build_meas_msgs, List.any_cons]
      cases hcm : create_measurement_msg m with
      | error e =>
          rw [hcm] at hm
          simp [step_raises, step_raises_contract, hm.1, hm.2]
      | ok c =>
          rw [hcm] at hm
          rw [hm]
          simp only [Bool.false_or]
          cases hb : build_meas_msgs rest with
          | error e2 =>
              rw [hb] at hrest
              simpa [step_raises, step_raises_contract] using hrest
          | ok cs =>
              rw [hb] at hrest
              simpa [step_raises, step_raises_contract] using hrest

/-- C8: under the assertion contract of the correction pipeline, the
per-message handler raises iff some corrected measurement carries an
orbit-product ephemeris with an unrecognized file source (aborting message
assembly for the epoch), and any exception that escapes is that contract
violation — no other data-quality condition escapes. -/
theorem C8_unrecognized_source_aborts (o : Oracles) (s : LaikadState)
    (rep : MeasurementReport) (mono : ℤ) (block : Bool)
    (hc : ((report_prep o s rep ((mono : ℚ) / 1000000000) block).corrected).all
            eph_contract = true) :
    (step_raises (process_ublox_msg o s (UbloxMsg.measurementReport rep) mono block)
      = ((report_prep o s rep ((mono : ℚ) / 1000000000) block).corrected).any bad_source) ∧
    (step_raises_contract (process_ublox_msg o s (UbloxMsg.measurementReport rep) mono block)
      = ((report_prep o s rep ((mono : ℚ) / 1000000000) block).corrected).any bad_source) := by
  have hb := build_meas_msgs_err _ hc
  simp only [process_ublox_msg, handle_report]
  cases hcm : build_meas_msgs
      ((report_prep o s rep ((mono : ℚ) / 1000000000) block).corrected) with
  | error e =>
      rw [hcm] at hb
      simpa [step_raises, step_raises_contract] using hb
  | ok mm =>
      rw [hcm] at hb
      simpa [step_raises, step_raises_contract] using hb

/-- Oracles whose solver finds the fix `[1, 2, 3]` (plus receiver clock
bias) and whose correction pipeline returns one measurement carrying the
unrecognized-source ephemeris. -/
def oracle_bad_src : Oracles :=
  { oracle0 with
    calc_pos_fix_gauss_newton := fun _ _ => ([1, 2, 3, 0], []),
    correct_measurements := fun _ _ _ => [meas_bad_src] }

/-- Witness for C8: from a cold start the solver yields a fix, the corrected
measurement has the unrecognized file-source tag `xyz`, the handler raises,
and the escaping exception is the contract violation. -/
theorem C8_unrecognized_source_aborts_witness :
    (step_raises (process_ublox_msg oracle_bad_src state0
        (UbloxMsg.measurementReport rep0) 0 false)
      = ((report_prep oracle_bad_src state0 rep0
            ((((0 : ℤ) : ℚ)) / 1000000000) false).corrected).any bad_source) ∧
    (step_raises_contract (process_ublox_msg oracle_bad_src state0
        (UbloxMsg.measurementReport rep0) 0 false)
      = ((report_prep oracle_bad_src state0 rep0
            ((((0 : ℤ) : ℚ)) / 1000000000) false).corrected).any bad_source) ∧
    (((report_prep oracle_bad_src state0 rep0
        ((((0 : ℤ) : ℚ)) / 1000000000) false).corrected).any bad_source = true) := by
  have h := C8_unrecognized_source_aborts oracle_bad_src state0 rep0 0 false (by decide)
  exact ⟨h.1, h.2, by decide⟩
